import Mathlib

/-!
Verification development for the LuckeeDAO `decentralized_decision_vote`
Python SDK (`src/clients/sdk/python/src/luckee_dao_vote_sdk/`).

The embedding covers:
* `crypto.py` — the commit-reveal Commitment Engine (SHA-256 based
  commitment hashing and hex validation helpers);
* `client.py` — the event channel (listener registry, message loop,
  dispatch) and the HTTP error translation of the facade.

Machine integers are modelled as `Nat` with explicit reduction modulo
`2 ^ 32` where the SHA-256 algorithm requires 32-bit wraparound.
Python exceptions are modelled with `Except` / explicit error values.
-/

namespace VoteSDK

/-- Reduce a natural number to a 32-bit word (Python/SHA-256 arithmetic is
over 32-bit words inside the compression function). -/
def w32 (n : Nat) : Nat := n % 4294967296

/-- Right rotation of a 32-bit word by `k` bits. -/
def rotr32 (k x : Nat) : Nat := w32 ((x >>> k) ||| (x <<< (32 - k)))

/-- SHA-256 Σ0. -/
def bigSigma0 (x : Nat) : Nat := (rotr32 2 x) ^^^ (rotr32 13 x) ^^^ (rotr32 22 x)

/-- SHA-256 Σ1. -/
def bigSigma1 (x : Nat) : Nat := (rotr32 6 x) ^^^ (rotr32 11 x) ^^^ (rotr32 25 x)

/-- SHA-256 σ0. -/
def smallSigma0 (x : Nat) : Nat := (rotr32 7 x) ^^^ (rotr32 18 x) ^^^ (x >>> 3)

/-- SHA-256 σ1. -/
def smallSigma1 (x : Nat) : Nat := (rotr32 17 x) ^^^ (rotr32 19 x) ^^^ (x >>> 10)

/-- SHA-256 Ch; bitwise not of a 32-bit word is xor with `0xFFFFFFFF`. -/
def chFun (x y z : Nat) : Nat := (x &&& y) ^^^ ((x ^^^ 4294967295) &&& z)

/-- SHA-256 Maj. -/
def majFun (x y z : Nat) : Nat := (x &&& y) ^^^ (x &&& z) ^^^ (y &&& z)

/-- The 64 SHA-256 round constants (FIPS 180-4), written in decimal. -/
def sha256K : List Nat :=
  [1116352408, 1899447441, 3049323471, 3921009573, 961987163, 1508970993,
   2453635748, 2870763221, 3624381080, 310598401, 607225278, 1426881987,
   1925078388, 2162078206, 2614888103, 3248222580, 3835390401, 4022224774,
   264347078, 604807628, 770255983, 1249150122, 1555081692, 1996064986,
   2554220882, 2821834349, 2952996808, 3210313671, 3336571891, 3584528711,
   113926993, 338241895, 666307205, 773529912, 1294757372, 1396182291,
   1695183700, 1986661051, 2177026350, 2456956037, 2730485921, 2820302411,
   3259730800, 3345764771, 3516065817, 3600352804, 4094571909, 275423344,
   430227734, 506948616, 659060556, 883997877, 958139571, 1322822218,
   1537002063, 1747873779, 1955562222, 2024104815, 2227730452, 2361852424,
   2428436474, 2756734187, 3204031479, 3329325298]

/-- The eight 32-bit words of a SHA-256 hash state. -/
structure Hash8 where
  h0 : Nat
  h1 : Nat
  h2 : Nat
  h3 : Nat
  h4 : Nat
  h5 : Nat
  h6 : Nat
  h7 : Nat
deriving DecidableEq

/-- SHA-256 initial hash value (FIPS 180-4), written in decimal. -/
def sha256H0 : Hash8 :=
  ⟨1779033703, 3144134277, 1013904242, 2773480762,
   1359893119, 2600822924, 528734635, 1541459225⟩

/-- Extend a 16-word message block to the 64-word SHA-256 message schedule. -/
def extendSchedule (block : List Nat) : List Nat :=
  (List.range 48).foldl (fun ws j =>
    let i := 16 + j
    ws ++ [w32 (smallSigma1 (ws.getD (i - 2) 0) + ws.getD (i - 7) 0 +
                smallSigma0 (ws.getD (i - 15) 0) + ws.getD (i - 16) 0)]) block

/-- One SHA-256 compression round; `kw` is the sum of the round constant
and the scheduled word (reduced inside the additions). -/
def compressRound (x : Hash8) (kw : Nat) : Hash8 :=
  let t1 := w32 (x.h7 + bigSigma1 x.h4 + chFun x.h4 x.h5 x.h6 + kw)
  let t2 := w32 (bigSigma0 x.h0 + majFun x.h0 x.h1 x.h2)
  ⟨w32 (t1 + t2), x.h0, x.h1, x.h2, w32 (x.h3 + t1), x.h4, x.h5, x.h6⟩

/-- Compress one 16-word block into the running hash state. -/
def compressBlock (h : Hash8) (block : List Nat) : Hash8 :=
  let ws := extendSchedule block
  let x := (sha256K.zip ws).foldl (fun st p => compressRound st (p.1 + p.2)) h
  ⟨w32 (h.h0 + x.h0), w32 (h.h1 + x.h1), w32 (h.h2 + x.h2), w32 (h.h3 + x.h3),
   w32 (h.h4 + x.h4), w32 (h.h5 + x.h5), w32 (h.h6 + x.h6), w32 (h.h7 + x.h7)⟩

/-- SHA-256 padding: append `0x80`, zero bytes up to 56 mod 64, then the
bit length as an 8-byte big-endian integer. -/
def padMessage (msg : List Nat) : List Nat :=
  let L := msg.length
  let z := (119 - (L % 64)) % 64
  let bits := 8 * L
  msg ++ [128] ++ List.replicate z 0 ++
    [(bits >>> 56) &&& 255, (bits >>> 48) &&& 255, (bits >>> 40) &&& 255, (bits >>> 32) &&& 255,
     (bits >>> 24) &&& 255, (bits >>> 16) &&& 255, (bits >>> 8) &&& 255, bits &&& 255]

/-- Split a byte list into 64-byte chunks; `fuel` bounds the recursion
(structural recursion so that the kernel can evaluate it; any fuel at
least the number of chunks gives the same result). -/
def chunksAux : Nat → List Nat → List (List Nat)
  | 0, _ => []
  | _, [] => []
  | fuel + 1, l => l.take 64 :: chunksAux fuel (l.drop 64)

/-- Split a byte list into 64-byte chunks (the list's length always
suffices as fuel, since every step consumes at least one element). -/
def chunks64 (l : List Nat) : List (List Nat) := chunksAux l.length l

/-- Combine bytes, four at a time big-endian, into 32-bit words. -/
def bytesToWords : List Nat → List Nat
  | b0 :: b1 :: b2 :: b3 :: rest =>
      ((b0 <<< 24) ||| (b1 <<< 16) ||| (b2 <<< 8) ||| b3) :: bytesToWords rest
  | _ => []

/-- SHA-256 of a byte string, as the final eight-word hash state. -/
def sha256Words (msg : List Nat) : Hash8 :=
  (chunks64 (padMessage msg)).foldl (fun h blk => compressBlock h (bytesToWords blk)) sha256H0

/-- Big-endian bytes of a 32-bit word. -/
def wordBytes (w : Nat) : List Nat :=
  [(w >>> 24) &&& 255, (w >>> 16) &&& 255, (w >>> 8) &&& 255, w &&& 255]

/-- The 32 digest bytes of a SHA-256 hash state. -/
def digestBytes (h : Hash8) : List Nat :=
  wordBytes h.h0 ++ wordBytes h.h1 ++ wordBytes h.h2 ++ wordBytes h.h3 ++
  wordBytes h.h4 ++ wordBytes h.h5 ++ wordBytes h.h6 ++ wordBytes h.h7

/-- The sixteen lowercase hexadecimal digit characters, in value order. -/
def hexChars : List Char := "0123456789abcdef".data

/-- Lowercase hex digit for a value below 16. -/
def hexChar (n : Nat) : Char := hexChars.getD n '0'

/-- Render bytes as lowercase hex characters, two per byte (Python
`hexdigest` / `binascii.hexlify`). -/
def bytesToHex : List Nat → List Char
  | [] => []
  | b :: bs => hexChar (b / 16) :: hexChar (b % 16) :: bytesToHex bs

/-- UTF-8 encoding of a single character (Python `str.encode()` default). -/
def utf8EncodeChar (c : Char) : List Nat :=
  let n := c.toNat
  if n < 128 then [n]
  else if n < 2048 then [192 + n / 64, 128 + n % 64]
  else if n < 65536 then [224 + n / 4096, 128 + (n / 64) % 64, 128 + n % 64]
  else [240 + n / 262144, 128 + (n / 4096) % 64, 128 + (n / 64) % 64, 128 + n % 64]

/-- UTF-8 encoding of a character list. -/
def utf8Bytes : List Char → List Nat
  | [] => []
  | c :: cs => utf8EncodeChar c ++ utf8Bytes cs

/-- UTF-8 encoding of a string (Python `s.encode()`; Lean strings carry no
surrogate code points, so encoding never fails here). -/
def utf8Encode (s : String) : List Nat := utf8Bytes s.data

/-- SHA-256 hex digest of a byte string (Python
`hashlib.sha256(b).hexdigest()`): 64 lowercase hex characters. -/
def sha256hex (msg : List Nat) : String :=
  String.mk (bytesToHex (digestBytes (sha256Words msg)))

/-- Embedding of `crypto.create_commitment`: SHA-256 hex digest of the
UTF-8 bytes of `value ++ ":" ++ salt` (the Python f-string
interpolation of the two arguments around a colon). -/
def create_commitment (value salt : String) : String :=
  sha256hex (utf8Encode (value ++ ":" ++ salt))

/-- Embedding of `crypto.verify_commitment`: recompute via
`create_commitment` and compare for exact string equality. -/
def verify_commitment (value salt commitment_hash : String) : Bool :=
  create_commitment value salt == commitment_hash

/-- Embedding of `crypto.hash_string`: unsalted SHA-256 hex digest. -/
def hash_string (input_string : String) : String :=
  sha256hex (utf8Encode input_string)

/-- ASCII whitespace accepted by CPython's integer parser (`Py_ISSPACE`):
space, tab, newline, vertical tab, form feed, carriage return. -/
def isPySpace (c : Char) : Bool :=
  c = ' ' || c = '\t' || c = '\n' || c = '\x0b' || c = '\x0c' || c = '\r'

/-- A hexadecimal digit character: `0-9`, `a-f` or `A-F`. -/
def isHexDigitChar (c : Char) : Bool :=
  ('0' ≤ c && c ≤ '9') || ('a' ≤ c && c ≤ 'f') || ('A' ≤ c && c ≤ 'F')

/-- All remaining characters are whitespace (trailing whitespace after the
digits of a Python integer literal). -/
def allSpaces : List Char → Bool
  | [] => true
  | c :: r => isPySpace c && allSpaces r

/-- After at least one hex digit has been consumed: accept further hex
digits, single underscores between digits, and trailing whitespace
(CPython underscore rules: not trailing, not doubled). -/
def digitsRest : List Char → Bool
  | [] => true
  | c :: r =>
    if c = '_' then
      match r with
      | c2 :: r2 => isHexDigitChar c2 && digitsRest r2
      | [] => false
    else if isHexDigitChar c then digitsRest r
    else isPySpace c && allSpaces r

/-- A run of hex digits must start with a hex digit (no leading
underscore), then continue as `digitsRest`. -/
def startDigits : List Char → Bool
  | [] => false
  | c :: r => isHexDigitChar c && digitsRest r

/-- Strip one optional leading sign character. -/
def pySign (l : List Char) : List Char :=
  match l with
  | [] => []
  | c :: r => if c = '+' || c = '-' then r else l

/-- After the optional sign: an optional `0x`/`0X` prefix (one underscore
allowed directly after the prefix), then the digit run. -/
def parseNum (l : List Char) : Bool :=
  match l with
  | c0 :: c1 :: r =>
    if c0 = '0' && (c1 = 'x' || c1 = 'X') then
      match r with
      | c2 :: r2 => if c2 = '_' then startDigits r2 else startDigits (c2 :: r2)
      | [] => false
    else startDigits l
  | _ => startDigits l

/-- Acceptance predicate of the Python builtin `int(s, 16)` (the conversion
`crypto.is_valid_hex` delegates to), restricted to ASCII: optional
surrounding whitespace, optional sign, optional `0x`/`0X` prefix, then a
non-empty run of hex digits with single underscores allowed between
digits. CPython additionally maps Unicode decimal digits and Unicode
whitespace to their ASCII counterparts before parsing; that Unicode
normalization step is not modelled. -/
def pyIntHex16Ok (s : String) : Bool :=
  parseNum (pySign (s.data.dropWhile isPySpace))

/-- Embedding of `crypto.is_valid_hex`: `int(input_string, 16)` inside
`try`, returning whether it succeeded. -/
def is_valid_hex (input_string : String) : Bool := pyIntHex16Ok input_string

/-- Embedding of `crypto.is_valid_commitment_hash`:
`is_valid_hex(s) and len(s) == 64`. -/
def is_valid_commitment_hash (s : String) : Bool :=
  is_valid_hex s && s.length == 64

/-- Embedding of `crypto.is_valid_salt`: `is_valid_hex(s) and len(s) == 64`. -/
def is_valid_salt (salt : String) : Bool :=
  is_valid_hex salt && salt.length == 64

/-- Parsed JSON values as Python's `json.loads` produces them (JSON
`null` becomes Python `None`, here the `null` constructor; objects are
association lists with the keys a Python dict would hold). Numbers are
modelled as integers, enough for the payloads the claims touch. -/
inductive Json where
  | null
  | bool (b : Bool)
  | num (n : Int)
  | str (s : String)
  | arr (items : List Json)
  | obj (fields : List (String × Json))

/-- First-match lookup in a JSON object's fields (Python `dict`
subscription / `dict.get`; parsed dicts hold each key once). -/
def jLookup : List (String × Json) → String → Option Json
  | [], _ => none
  | (k, v) :: r, key => if k = key then some v else jLookup r key

/-- Python exception values raised by the SDK paths modelled here.
`valueError` is Python's builtin `ValueError`; `voteError` and
`networkError` embed the classes of `types.py` (a `VoteError` carries
`message`, `code` — `None` when absent — and `details`).
The constructors `configurationError`, `connectionError` and
`invalidInputError` are modelled from the spec: its §7 error taxonomy
names these types, but no such classes exist anywhere in the code; they
are included only so that claims mentioning them can be stated. -/
inductive PyExc where
  | valueError (msg : String)
  | unicodeEncodeError (msg : String)
  | voteError (message : Json) (code : Json) (details : Json)
  | networkError (message : String) (status : Nat) (response : Json)
  | configurationError (msg : String)
  | connectionError (msg : String)
  | invalidInputError (msg : String)

/-- Whether an exception value is the spec's `ConfigurationError`. -/
def PyExc.isConfigurationError : PyExc → Bool
  | .configurationError _ => true
  | _ => false

/-- Whether an exception value is the spec's `InvalidInputError`. -/
def PyExc.isInvalidInputError : PyExc → Bool
  | .invalidInputError _ => true
  | _ => false

/-- Whether an exception value is the spec's `ConnectionError`. -/
def PyExc.isConnectionError : PyExc → Bool
  | .connectionError _ => true
  | _ => false

/-- Embedding of `crypto.generate_secure_random`:
`secrets.token_hex(length)`, i.e. the hex rendering of
`os.urandom(length)`. The OS entropy source is passed in as `urandom`
(returning the requested number of bytes); `os.urandom` raises the
builtin `ValueError` on a negative length. -/
def generate_secure_random (urandom : Nat → List Nat) (length : Int) :
    Except PyExc String :=
  if length < 0 then .error (.valueError "negative argument not allowed")
  else .ok (String.mk (bytesToHex (urandom length.toNat)))

/-- Exception-tracking view of `crypto.verify_commitment`: its body
performs no validation and, on Lean-representable strings (which carry no
surrogate code points), no operation that can raise, so it always returns
normally with the boolean comparison result. -/
def verify_commitmentE (value salt commitment_hash : String) :
    Except PyExc Bool :=
  .ok (verify_commitment value salt commitment_hash)

/-- Python `str.upper()` on the ASCII strings produced by
`create_commitment` (Lean's `Char.toUpper` agrees with Python on ASCII). -/
def pyUpper (s : String) : String := String.mk (s.data.map Char.toUpper)

/-- A lowercase hexadecimal character: `0-9` or `a-f`. -/
def isLowerHexDigit (c : Char) : Bool :=
  ('0' ≤ c && c ≤ '9') || ('a' ≤ c && c ≤ 'f')

/-- Every entry of `hexChars` is a lowercase hex character. -/
lemma hexChars_lower : ∀ c ∈ hexChars, isLowerHexDigit c = true := by decide

/-- `hexChar` always lands in the hex alphabet (the out-of-range default
is `'0'`, itself a member). -/
lemma hexChar_mem (n : Nat) : hexChar n ∈ hexChars := by
  unfold hexChar
  by_cases h : n < hexChars.length
  · rw [List.getD_eq_getElem hexChars '0' h]
    exact List.getElem_mem h
  · rw [List.getD_eq_default hexChars '0' (Nat.le_of_not_lt h)]
    decide

/-- Characters produced by `bytesToHex` lie in the hex alphabet. -/
lemma bytesToHex_mem {bs : List Nat} {c : Char} (h : c ∈ bytesToHex bs) :
    c ∈ hexChars := by
  induction bs with
  | nil => simp [bytesToHex] at h
  | cons b bs ih =>
    simp only [bytesToHex, List.mem_cons] at h
    rcases h with h | h | h
    · exact h ▸ hexChar_mem _
    · exact h ▸ hexChar_mem _
    · exact ih h

/-- `bytesToHex` yields two characters per byte. -/
lemma bytesToHex_length (bs : List Nat) : (bytesToHex bs).length = 2 * bs.length := by
  induction bs with
  | nil => rfl
  | cons b bs ih => simp [bytesToHex, ih]; omega

/-- A SHA-256 digest always has 32 bytes. -/
lemma digestBytes_length (h : Hash8) : (digestBytes h).length = 32 := rfl

/-- A commitment hash always renders as 64 characters. -/
lemma create_commitment_length (value salt : String) :
    (create_commitment value salt).length = 64 := by
  show (bytesToHex (digestBytes _)).length = 64
  rw [bytesToHex_length, digestBytes_length]

/-- Every character of a commitment hash lies in the lowercase hex
alphabet. -/
lemma create_commitment_mem {value salt : String} {c : Char}
    (h : c ∈ (create_commitment value salt).data) : c ∈ hexChars :=
  bytesToHex_mem h

/-- Claim C1: for every pair of strings `v` and `s`,
`verify_commitment(v, s, create_commitment(v, s))` returns true:
verification recomputes the commitment via `create_commitment` and
compares for exact string equality, so a hash produced from `(v, s)`
always verifies against the same `(v, s)`. -/
theorem C1_verify_create_roundtrip (v s : String) :
    verify_commitment v s (create_commitment v s) = true := by
  simp [verify_commitment]

/-- Claim C2: `create_commitment(value, salt)` equals the SHA-256 digest
of the UTF-8 bytes of `value ++ ":" ++ salt`, rendered as exactly 64
lowercase hexadecimal characters, and the function is pure and
deterministic (equal inputs give equal outputs; the embedding is a total
function, so there are no side effects). -/
theorem C2_create_commitment_shape (value salt : String) :
    create_commitment value salt = sha256hex (utf8Encode (value ++ ":" ++ salt))
    ∧ (create_commitment value salt).length = 64
    ∧ (∀ c ∈ (create_commitment value salt).data, isLowerHexDigit c = true)
    ∧ (∀ v2 s2, value = v2 → salt = s2 →
        create_commitment value salt = create_commitment v2 s2) := by
  refine ⟨rfl, create_commitment_length value salt, ?_, ?_⟩
  · intro c hc
    exact hexChars_lower c (create_commitment_mem hc)
  · intro v2 s2 hv hs
    rw [hv, hs]

/-- Witness for C2 at a concrete input. -/
theorem C2_witness :
    (create_commitment "a" "b").length = 64
    ∧ create_commitment "a" "b" = create_commitment "a" "b" :=
  ⟨(C2_create_commitment_shape "a" "b").2.1,
   (C2_create_commitment_shape "a" "b").2.2.2 "a" "b" rfl rfl⟩

/-- A hex digit is not Python whitespace. -/
lemma hex_not_space {c : Char} (h : isHexDigitChar c = true) :
    isPySpace c = false := by
  by_contra hs
  have hs' : isPySpace c = true := by
    revert hs; cases isPySpace c <;> simp
  simp only [isPySpace, Bool.or_eq_true, decide_eq_true_eq] at hs'
  rcases hs' with ((((h1 | h1) | h1) | h1) | h1) | h1 <;>
    subst h1 <;> exact absurd h (by decide)

/-- A hex digit is none of the special characters of the integer
grammar. -/
lemma hex_ne_special {c : Char} (h : isHexDigitChar c = true) :
    c ≠ '+' ∧ c ≠ '-' ∧ c ≠ '_' ∧ c ≠ 'x' ∧ c ≠ 'X' := by
  refine ⟨?_, ?_, ?_, ?_, ?_⟩ <;> intro he <;> subst he <;>
    exact absurd h (by decide)

/-- `digitsRest` accepts any string of hex digits. -/
lemma digitsRest_of_all_hex {l : List Char}
    (h : ∀ c ∈ l, isHexDigitChar c = true) : digitsRest l = true := by
  induction l with
  | nil => rfl
  | cons c r ih =>
    have hc : isHexDigitChar c = true := h c (List.mem_cons_self c r)
    have hne : c ≠ '_' := (hex_ne_special hc).2.2.1
    rw [digitsRest.eq_def]
    simp only [if_neg hne, hc, if_true]
    exact ih fun x hx => h x (List.mem_cons_of_mem c hx)

/-- `startDigits` accepts any non-empty string of hex digits. -/
lemma startDigits_of_all_hex {l : List Char} (hne : l ≠ [])
    (h : ∀ c ∈ l, isHexDigitChar c = true) : startDigits l = true := by
  cases l with
  | nil => exact absurd rfl hne
  | cons c r =>
    have hc : isHexDigitChar c = true := h c (List.mem_cons_self c r)
    rw [startDigits.eq_def]
    simp only [hc, Bool.true_and]
    exact digitsRest_of_all_hex fun x hx => h x (List.mem_cons_of_mem c hx)

/-- `parseNum` accepts any non-empty string of hex digits (the `0x`
prefix branch is never taken, because `x`/`X` are not hex digits). -/
lemma parseNum_of_all_hex {l : List Char} (hne : l ≠ [])
    (h : ∀ c ∈ l, isHexDigitChar c = true) : parseNum l = true := by
  match l with
  | [] => exact absurd rfl hne
  | [c0] => exact startDigits_of_all_hex hne h
  | c0 :: c1 :: r =>
    have hc1 : isHexDigitChar c1 = true :=
      h c1 (List.mem_cons_of_mem c0 (List.mem_cons_self c1 r))
    have hx : c1 ≠ 'x' := (hex_ne_special hc1).2.2.2.1
    have hX : c1 ≠ 'X' := (hex_ne_special hc1).2.2.2.2
    have hcond : (c0 = '0' && (c1 = 'x' || c1 = 'X')) = false := by
      simp [hx, hX]
    rw [parseNum.eq_def]
    simp only [hcond, Bool.false_eq_true, if_false]
    exact startDigits_of_all_hex hne h

/-- `pySign` leaves a string headed by a hex digit unchanged. -/
lemma pySign_of_all_hex {c : Char} {r : List Char}
    (hc : isHexDigitChar c = true) : pySign (c :: r) = c :: r := by
  have hp : c ≠ '+' := (hex_ne_special hc).1
  have hm : c ≠ '-' := (hex_ne_special hc).2.1
  rw [pySign.eq_def]
  simp [hp, hm]

/-- `is_valid_hex` accepts every non-empty string of hex digits. -/
lemma is_valid_hex_of_all_hex (s : String) (hne : s.data ≠ [])
    (h : ∀ c ∈ s.data, isHexDigitChar c = true) : is_valid_hex s = true := by
  show parseNum (pySign (s.data.dropWhile isPySpace)) = true
  cases hd : s.data with
  | nil => exact absurd hd hne
  | cons c r =>
    have hall : ∀ x ∈ c :: r, isHexDigitChar x = true := hd ▸ h
    have hc : isHexDigitChar c = true := hall c (List.mem_cons_self c r)
    rw [List.dropWhile_cons, if_neg (by simp [hex_not_space hc])]
    rw [pySign_of_all_hex hc]
    exact parseNum_of_all_hex (by simp) hall

/-- Counterexample to claim C3 as stated: `is_valid_hex "+f"` returns
true although `'+'` is not a hexadecimal digit, because the underlying
Python conversion `int(s, 16)` accepts an optional sign (as well as
whitespace, a `0x` prefix and underscores). -/
theorem C3_counterexample :
    ¬ (is_valid_hex "+f" = true ↔
        ("+f" ≠ "" ∧ ∀ c ∈ ("+f" : String).data, isHexDigitChar c = true)) := by
  decide

/-- Claim C3 as amended: `is_valid_hex` accepts every non-empty string
made of hex digits (and the spec's `is_valid_commitment_hash` examples
hold), but the converse direction fails: strings with whitespace, a
sign, a `0x`/`0X` prefix or underscores between digits are also
accepted. -/
theorem C3_is_valid_hex_amended :
    (∀ s : String, s.data ≠ [] → (∀ c ∈ s.data, isHexDigitChar c = true) →
      is_valid_hex s = true)
    ∧ is_valid_commitment_hash (String.mk (List.replicate 64 'a')) = true
    ∧ is_valid_commitment_hash (String.mk (List.replicate 63 'a')) = false
    ∧ is_valid_commitment_hash (String.mk (List.replicate 64 'g')) = false := by
  refine ⟨is_valid_hex_of_all_hex, by decide, by decide, by decide⟩

/-- Witness for C3's amended statement at a concrete input. -/
theorem C3_witness : is_valid_hex "7b" = true :=
  C3_is_valid_hex_amended.1 "7b" (by decide) (by decide)

/-- Uppercasing a lowercase hex character still yields a hex digit. -/
lemma toUpper_hex : ∀ c ∈ hexChars, isHexDigitChar (Char.toUpper c) = true := by
  decide

/-- Claim C10: letting `H` be the uppercase rendering of
`create_commitment(v, s)`, `is_valid_commitment_hash(H)` returns true,
and whenever `H` actually differs from the digest (i.e. the digest
contains at least one letter, so uppercasing changes it),
`verify_commitment(v, s, H)` returns false: the validators are
case-insensitive while verification compares case-sensitively. -/
theorem C10_case_mismatch (v s : String) :
    is_valid_commitment_hash (pyUpper (create_commitment v s)) = true
    ∧ (pyUpper (create_commitment v s) ≠ create_commitment v s →
        verify_commitment v s (pyUpper (create_commitment v s)) = false) := by
  constructor
  · have hlen : (pyUpper (create_commitment v s)).length = 64 := by
      show ((create_commitment v s).data.map Char.toUpper).length = 64
      rw [List.length_map]
      exact create_commitment_length v s
    have hhex : is_valid_hex (pyUpper (create_commitment v s)) = true := by
      apply is_valid_hex_of_all_hex
      · intro hd
        have : (pyUpper (create_commitment v s)).length = 0 := by
          show (pyUpper (create_commitment v s)).data.length = 0
          rw [hd]; rfl
        omega
      · intro c hc
        rcases List.mem_map.mp hc with ⟨c0, hc0, rfl⟩
        exact toUpper_hex c0 (create_commitment_mem hc0)
    show (is_valid_hex _ && _) = true
    rw [hhex, hlen]
    rfl
  · intro hne
    show (create_commitment v s == pyUpper (create_commitment v s)) = false
    rw [beq_eq_false_iff_ne]
    exact fun h => hne h.symm

/-- Witness for C10 at a concrete input whose digest contains letters. -/
theorem C10_witness :
    is_valid_commitment_hash (pyUpper (create_commitment "a" "b")) = true
    ∧ verify_commitment "a" "b" (pyUpper (create_commitment "a" "b")) = false :=
  ⟨(C10_case_mismatch "a" "b").1, (C10_case_mismatch "a" "b").2 (by decide)⟩

/-- Whether a modelled Python call raised an exception. -/
def raisesException {α : Type} : Except PyExc α → Bool
  | .ok _ => false
  | .error _ => true

/-- Whether a modelled Python call raised the spec's
`InvalidInputError`. -/
def raisedInvalidInput {α : Type} : Except PyExc α → Bool
  | .ok _ => false
  | .error e => e.isInvalidInputError

/-- Counterexample to claim C4 as stated: at the malformed inputs cited
by the spec, no `InvalidInputError` is raised — a negative length makes
`generate_secure_random` fail with Python's builtin `ValueError` (there
is no `InvalidInputError` class anywhere in the code), and
`verify_commitment` on a non-hex, wrong-length hash does not fail at
all: it returns normally. -/
theorem C4_counterexample :
    generate_secure_random (fun _ => []) (-1)
      = Except.error (PyExc.valueError "negative argument not allowed")
    ∧ raisedInvalidInput (generate_secure_random (fun _ => []) (-1)) = false
    ∧ raisesException (verify_commitmentE "a" "b" "zz!!") = false :=
  ⟨rfl, rfl, rfl⟩

/-- Claim C4 as amended: the Commitment Engine performs no input
validation of its own and never raises the spec's `InvalidInputError`:
a negative length makes `generate_secure_random` raise the builtin
`ValueError` coming from `os.urandom`, and `verify_commitment` returns
normally on every (well-formed-string) input, a malformed hash simply
comparing unequal. -/
theorem C4_no_invalid_input_error :
    (∀ (urandom : Nat → List Nat) (len : Int), len < 0 →
      generate_secure_random urandom len
        = Except.error (PyExc.valueError "negative argument not allowed"))
    ∧ (∀ v s h, raisesException (verify_commitmentE v s h) = false) := by
  constructor
  · intro u len hlt
    simp [generate_secure_random, hlt]
  · intro v s h
    rfl

/-- Witness for C4's amended statement at concrete inputs. -/
theorem C4_witness :
    generate_secure_random (fun _ => [0]) (-5)
      = Except.error (PyExc.valueError "negative argument not allowed")
    ∧ raisesException (verify_commitmentE "x" "y" "nothex") = false :=
  ⟨C4_no_invalid_input_error.1 (fun _ => [0]) (-5) (by decide),
   C4_no_invalid_input_error.2 "x" "y" "nothex"⟩

/-- Embedding of `types.VoteSDKConfig` (pydantic model; the `ge`
validators on `timeout`/`retries` play no role in the claims below). -/
structure VoteSDKConfig where
  base_url : String
  api_key : Option String := none
  timeout : Int := 30
  retries : Int := 3
  websocket_url : Option String := none

/-- The real-time connection state a `VoteClient` instance owns:
`websocket` is the open connection handle (`None` when disconnected) and
`websocket_task` the handle of the listening task. Handles are
abstracted to numbers. -/
structure WSClientState where
  websocket : Option Nat := none
  websocket_task : Option Nat := none
deriving DecidableEq

/-- Embedding of `VoteClient.connect_websocket`. The transport call
`websockets.connect(url)` is abstracted as the `transport` argument: a
connection handle on success, an exception message on failure (the
`await` raises before `self.websocket` is assigned, so the prior state
survives a failure). Python's `if not self.config.websocket_url` is
truthiness: both a missing and an empty URL raise. Returns the updated
state and the raised exception, if any. -/
def connect_websocket (config : VoteSDKConfig) (st : WSClientState)
    (transport : Except String Nat) (taskId : Nat) :
    WSClientState × Option PyExc :=
  if config.websocket_url.getD "" = "" then
    (st, some (.voteError (.str "WebSocket URL not configured") .null (.obj [])))
  else
    match transport with
    | .error msg =>
      (st, some (.voteError (.str ("Failed to connect WebSocket: " ++ msg))
                            .null (.obj [])))
    | .ok conn => (⟨some conn, some taskId⟩, none)

/-- An HTTP response as the facade's error path observes it: the status
code, the raw body text, and the result of `response.json()` — `none`
when the body is not parseable JSON (transport-level JSON parsing itself
is out of scope; the parse outcome is supplied). -/
structure HttpResponse where
  status : Nat
  text : String
  jsonBody : Option Json

/-- Embedding of `VoteClient._handle_http_error`: if `response.json()`
yields a dict, build a `VoteError` from its `message` (default
`"HTTP request failed"`), `code` (default `None`) and `details` (default
the empty dict) entries; any other body (unparseable, or a non-dict on
which `.get` raises `AttributeError`, swallowed by the bare `except`)
yields a `NetworkError` with the status code and raw body text. -/
def handle_http_error (r : HttpResponse) : PyExc :=
  match r.jsonBody with
  | some (Json.obj kvs) =>
    .voteError ((jLookup kvs "message").getD (.str "HTTP request failed"))
               ((jLookup kvs "code").getD .null)
               ((jLookup kvs "details").getD (.obj []))
  | _ =>
    .networkError ("HTTP " ++ toString r.status ++ ": " ++ r.text) r.status
                  (.obj [("response", .str r.text)])

/-- Embedding of `types.CommitResponse`. -/
structure CommitResponse where
  commitment_id : String
  success : Bool
  message : String
deriving DecidableEq

/-- Construction of a `CommitResponse` from a response body
(`CommitResponse(**response.json())`; pydantic's lenient coercions are
abstracted to exact field shapes). -/
def parseCommitResponse (j : Option Json) : Option CommitResponse :=
  match j with
  | some (Json.obj kvs) =>
    match jLookup kvs "commitment_id", jLookup kvs "success",
          jLookup kvs "message" with
    | some (.str cid), some (.bool ok), some (.str msg) => some ⟨cid, ok, msg⟩
    | _, _, _ => none
  | _ => none

/-- Embedding of `VoteClient.commit_vote` from the response on: httpx's
`raise_for_status()` raises `HTTPStatusError` for every non-2xx status,
which the method maps through `_handle_http_error`; a 2xx response is
decoded into a `CommitResponse`, any decoding failure being wrapped by
the catch-all `except` into `VoteError("Failed to commit vote: ...")`
(the wrapped Python exception text is abstracted away here). -/
def commit_vote (resp : HttpResponse) : Except PyExc CommitResponse :=
  if 200 ≤ resp.status && resp.status < 300 then
    match parseCommitResponse resp.jsonBody with
    | some cr => .ok cr
    | none => .error (.voteError (.str "Failed to commit vote") .null (.obj []))
  else .error (handle_http_error resp)

/-- Embedding of `types.WebSocketEvent`: a `type` tag, a payload
(`data: Any`, defaulting to `None` when absent), and a timestamp
(pydantic parses it from a string; datetime parsing is abstracted and
the raw string kept). -/
structure WSEvent where
  type : String
  data : Json
  timestamp : String

/-- Decoding an inbound frame in `_websocket_listener`: the
`json.loads` outcome (supplied as `Option Json`) followed by
`WebSocketEvent(**data)`, which needs a dict with a string `type` and a
`timestamp`; anything else raises inside the per-message `try` and is
logged and skipped. -/
def parseEvent (m : Option Json) : Option WSEvent :=
  match m with
  | some (Json.obj kvs) =>
    match jLookup kvs "type", jLookup kvs "timestamp" with
    | some (.str t), some (.str ts) =>
      some ⟨t, (jLookup kvs "data").getD .null, ts⟩
    | _, _ => none
  | _ => none

/-- The listener registry `VoteClient.event_handlers`: a dict from event
type to the ordered list of registered handlers. Handlers are identified
by reference; the reference is abstracted to a number, a handler's
behaviour being supplied separately at dispatch time. -/
abbrev EventRegistry := List (String × List Nat)

/-- Dict lookup in the registry (first match; `on_event`/`off` keep keys
unique). -/
def regGet : EventRegistry → String → Option (List Nat)
  | [], _ => none
  | (k, v) :: r, t => if k = t then some v else regGet r t

/-- `dict.get(t, [])`: the handler list for a type, empty when the key
is absent. -/
def regGetD (reg : EventRegistry) (t : String) : List Nat :=
  (regGet reg t).getD []

/-- Python's `t in dict`. -/
def regContains (reg : EventRegistry) (t : String) : Bool :=
  (regGet reg t).isSome

/-- In-place update of the entry for a key (a no-op when absent). -/
def regUpdate : EventRegistry → String → (List Nat → List Nat) → EventRegistry
  | [], _, _ => []
  | (k, v) :: r, t, f => if k = t then (k, f v) :: r else (k, v) :: regUpdate r t f

/-- Embedding of `VoteClient.on` (named `on_event` because `on` is
reserved notation in Lean): create an empty list for an unseen type,
then append the handler — duplicates are kept. -/
def on_event (reg : EventRegistry) (event_type : String) (handler : Nat) :
    EventRegistry :=
  let reg' := if regContains reg event_type then reg else reg ++ [(event_type, [])]
  regUpdate reg' event_type (fun hs => hs ++ [handler])

/-- Embedding of `VoteClient.off`: when the type has an entry, remove
the first matching registration (`list.remove`; its `ValueError` on a
missing element is swallowed, so `List.erase`'s no-op matches);
otherwise do nothing. -/
def off (reg : EventRegistry) (event_type : String) (handler : Nat) :
    EventRegistry :=
  if regContains reg event_type then
    regUpdate reg event_type (fun hs => hs.erase handler)
  else reg

/-- Embedding of `VoteClient._handle_websocket_event`: look up the
handlers registered for the event's type and invoke each in order inside
its own `try`/`except` (a raising handler is logged and the loop
continues). `call h e` is handler `h`'s outcome on event `e`: `none` for
a normal return, `some msg` for a raised exception. The result is the
ordered invocation log: each invoked handler paired with its outcome. -/
def handle_websocket_event (call : Nat → WSEvent → Option String)
    (reg : EventRegistry) (e : WSEvent) : List (Nat × Option String) :=
  (regGetD reg e.type).map fun h => (h, call h e)

/-- Embedding of the message loop of `VoteClient._websocket_listener`
over a finite inbound message sequence: each frame is decoded inside a
`try` — on failure the error is logged and the loop continues with the
next message; on success the event is dispatched. The result is the
ordered invocation log across all messages. -/
def websocket_listener (call : Nat → WSEvent → Option String)
    (reg : EventRegistry) : List (Option Json) → List (Nat × Option String)
  | [] => []
  | m :: rest =>
    match parseEvent m with
    | some e => handle_websocket_event call reg e ++ websocket_listener call reg rest
    | none => websocket_listener call reg rest

/-- Updating a key rewrites exactly its looked-up value. -/
lemma regGet_regUpdate (reg : EventRegistry) (t : String)
    (f : List Nat → List Nat) :
    regGet (regUpdate reg t f) t = (regGet reg t).map f := by
  induction reg with
  | nil => rfl
  | cons p r ih =>
    obtain ⟨k, v⟩ := p
    by_cases h : k = t
    · simp [regUpdate, regGet, h]
    · simp [regUpdate, regGet, h, ih]

/-- Updating one key leaves every other key's lookup unchanged. -/
lemma regGet_regUpdate_ne (reg : EventRegistry) {t t2 : String}
    (f : List Nat → List Nat) (h : t2 ≠ t) :
    regGet (regUpdate reg t f) t2 = regGet reg t2 := by
  induction reg with
  | nil => rfl
  | cons p r ih =>
    obtain ⟨k, v⟩ := p
    by_cases hk : k = t
    · subst hk
      have : k ≠ t2 := fun he => h he.symm
      simp [regUpdate, regGet, this]
    · by_cases hk2 : k = t2
      · simp [regUpdate, regGet, hk, hk2, h]
      · simp [regUpdate, regGet, hk, hk2, ih]

/-- Appending entries behind an absent key makes lookup continue there. -/
lemma regGet_append_none {reg : EventRegistry} {t : String}
    (h : regGet reg t = none) (l2 : EventRegistry) :
    regGet (reg ++ l2) t = regGet l2 t := by
  induction reg with
  | nil => rfl
  | cons p r ih =>
    obtain ⟨k, v⟩ := p
    by_cases hk : k = t
    · simp [regGet, hk] at h
    · simp only [regGet, hk, if_neg hk, List.cons_append] at h ⊢
      simp [regGet, hk]
      exact ih h

/-- Updating with a function that fixes the stored value is a no-op. -/
lemma regUpdate_self {reg : EventRegistry} {t : String}
    {f : List Nat → List Nat}
    (h : ∀ v, regGet reg t = some v → f v = v) : regUpdate reg t f = reg := by
  induction reg with
  | nil => rfl
  | cons p r ih =>
    obtain ⟨k, v⟩ := p
    by_cases hk : k = t
    · subst hk
      have hv : f v = v := h v (by simp [regGet])
      simp [regUpdate, hv]
    · simp only [regUpdate, if_neg hk]
      have : regUpdate r t f = r := by
        apply ih
        intro w hw
        apply h
        simp [regGet, hk, hw]
      rw [this]

/-- Registration appends the handler to the type's (possibly fresh)
list. -/
lemma regGet_on_event (reg : EventRegistry) (t : String) (h : Nat) :
    regGet (on_event reg t h) t = some (regGetD reg t ++ [h]) := by
  unfold on_event
  by_cases hc : regContains reg t
  · simp only [hc, if_true, regGet_regUpdate]
    rcases hg : regGet reg t with _ | v
    · simp [regContains, hg] at hc
    · simp [regGetD, hg]
  · simp only [hc, if_false, Bool.false_eq_true, regGet_regUpdate]
    have hg : regGet reg t = none := by
      rcases hgg : regGet reg t with _ | v
      · rfl
      · simp [regContains, hgg] at hc
    rw [regGet_append_none hg]
    simp [regGet, regGetD, hg]

/-- Registration appends to the looked-up-with-default list as well. -/
lemma regGetD_on_event (reg : EventRegistry) (t : String) (h : Nat) :
    regGetD (on_event reg t h) t = regGetD reg t ++ [h] := by
  simp [regGetD, regGet_on_event]

/-- Claim C5 as stated fails: with no real-time endpoint configured,
`connect_websocket` raises `VoteError("WebSocket URL not configured")`,
not the spec's `ConfigurationError`; and on a transport-level connection
failure it raises a wrapping `VoteError`, not the spec's
`ConnectionError` (neither class exists in the code). -/
theorem C5_counterexample :
    (connect_websocket ⟨"https://api.example", none, 30, 3, none⟩ ⟨none, none⟩
        (.ok 7) 1).2
      = some (.voteError (.str "WebSocket URL not configured") .null (.obj []))
    ∧ ((connect_websocket ⟨"https://api.example", none, 30, 3, none⟩ ⟨none, none⟩
        (.ok 7) 1).2.map PyExc.isConfigurationError) = some false
    ∧ (connect_websocket ⟨"https://api.example", none, 30, 3, some "wss://x"⟩
        ⟨none, none⟩ (.error "refused") 1).2
      = some (.voteError (.str "Failed to connect WebSocket: refused") .null (.obj []))
    ∧ ((connect_websocket ⟨"https://api.example", none, 30, 3, some "wss://x"⟩
        ⟨none, none⟩ (.error "refused") 1).2.map PyExc.isConnectionError) = some false :=
  ⟨rfl, rfl, rfl, rfl⟩

/-- Claim C5 as amended: with no endpoint configured, connecting fails
with `VoteError("WebSocket URL not configured")`; with an endpoint
configured and the transport failing, it fails with a
`VoteError("Failed to connect WebSocket: ...")` and the channel state is
left untouched, so a previously disconnected channel stays
disconnected. -/
theorem C5_connect_errors :
    (∀ (cfg : VoteSDKConfig) (st : WSClientState) (tr : Except String Nat)
        (tid : Nat), cfg.websocket_url = none →
      connect_websocket cfg st tr tid
        = (st, some (.voteError (.str "WebSocket URL not configured") .null (.obj []))))
    ∧ (∀ (cfg : VoteSDKConfig) (st : WSClientState) (tid : Nat) (u msg : String),
        cfg.websocket_url = some u → u ≠ "" →
      connect_websocket cfg st (.error msg) tid
        = (st, some (.voteError (.str ("Failed to connect WebSocket: " ++ msg))
                                .null (.obj [])))) := by
  constructor
  · intro cfg st tr tid hurl
    simp [connect_websocket, hurl]
  · intro cfg st tid u msg hurl hne
    simp [connect_websocket, hurl, hne]

/-- Witness for C5's amended statement at concrete inputs. -/
theorem C5_witness :
    connect_websocket ⟨"https://api.example", none, 30, 3, none⟩ ⟨none, none⟩
        (.ok 7) 2
      = (⟨none, none⟩, some (.voteError (.str "WebSocket URL not configured")
                                        .null (.obj [])))
    ∧ connect_websocket ⟨"https://api.example", none, 30, 3, some "wss://x"⟩
        ⟨none, none⟩ (.error "refused") 2
      = (⟨none, none⟩, some (.voteError
            (.str ("Failed to connect WebSocket: " ++ "refused")) .null (.obj []))) :=
  ⟨C5_connect_errors.1 ⟨"https://api.example", none, 30, 3, none⟩ ⟨none, none⟩
      (.ok 7) 2 rfl,
   C5_connect_errors.2 ⟨"https://api.example", none, 30, 3, some "wss://x"⟩
      ⟨none, none⟩ 2 "wss://x" "refused" rfl (by decide)⟩

/-- Claim C6 as stated fails: a non-2xx response whose body is the JSON
object with no fields — which does not carry the claim's structured
error shape, since `message` is absent — is still mapped to a
`VoteError` (with the default message), not to a `NetworkError`. -/
theorem C6_counterexample :
    handle_http_error ⟨400, "\x7b\x7d", some (.obj [])⟩
      = .voteError (.str "HTTP request failed") .null (.obj [])
    ∧ jLookup [] "message" = none
    ∧ commit_vote ⟨400, "\x7b\x7d", some (.obj [])⟩
      = .error (.voteError (.str "HTTP request failed") .null (.obj [])) :=
  ⟨rfl, rfl, rfl⟩

/-- Claim C6 as amended: on a non-2xx response, if the body parses as a
JSON object the facade raises a `VoteError` built from the object's
`message` (defaulting to "HTTP request failed" when absent), `code`
(defaulting to `None`) and `details` (defaulting to the empty dict)
entries — whether or not a `message` is present; otherwise it raises a
`NetworkError` with the status code and raw body text. -/
theorem C6_http_error_mapping :
    (∀ (r : HttpResponse) (kvs : List (String × Json)),
        (200 ≤ r.status && r.status < 300) = false →
        r.jsonBody = some (.obj kvs) →
      commit_vote r = .error (.voteError
          ((jLookup kvs "message").getD (.str "HTTP request failed"))
          ((jLookup kvs "code").getD .null)
          ((jLookup kvs "details").getD (.obj []))))
    ∧ (∀ r : HttpResponse, (200 ≤ r.status && r.status < 300) = false →
        (∀ kvs, r.jsonBody ≠ some (.obj kvs)) →
      commit_vote r = .error (.networkError
          ("HTTP " ++ toString r.status ++ ": " ++ r.text) r.status
          (.obj [("response", .str r.text)]))) := by
  constructor
  · intro r kvs h2 hb
    simp [commit_vote, h2, handle_http_error, hb]
  · intro r h2 hb
    simp only [commit_vote, h2, Bool.false_eq_true, if_false]
    rcases hj : r.jsonBody with _ | j
    · simp [handle_http_error, hj]
    · cases j with
      | obj kvs => exact absurd hj (hb kvs)
      | null => simp [handle_http_error, hj]
      | bool b => simp [handle_http_error, hj]
      | num n => simp [handle_http_error, hj]
      | str s => simp [handle_http_error, hj]
      | arr l => simp [handle_http_error, hj]

/-- Witness for C6's amended statement: the spec's own example response
and an unparseable body. -/
theorem C6_witness :
    commit_vote ⟨400, "\x7bmessage: vote closed\x7d",
        some (.obj [("message", .str "vote closed"), ("code", .str "VOTE_CLOSED")])⟩
      = .error (.voteError (.str "vote closed") (.str "VOTE_CLOSED") (.obj []))
    ∧ commit_vote ⟨500, "oops", none⟩
      = .error (.networkError "HTTP 500: oops" 500 (.obj [("response", .str "oops")])) := by
  constructor
  · rw [C6_http_error_mapping.1 ⟨400, "\x7bmessage: vote closed\x7d",
        some (.obj [("message", .str "vote closed"), ("code", .str "VOTE_CLOSED")])⟩
        [("message", .str "vote closed"), ("code", .str "VOTE_CLOSED")]
        (by decide) rfl]
    rfl
  · rw [C6_http_error_mapping.2 ⟨500, "oops", none⟩ (by decide)
        (fun kvs h => by simp at h)]
    rfl

/-- Claim C7: the message loop is robust to individual failures — a
frame that fails to decode is skipped (the loop result on the remaining
frames is unchanged, so later well-formed frames are still dispatched),
and dispatch of one event invokes every registered listener exactly once
in order regardless of listener outcomes (a raising listener cannot
suppress the remaining ones). -/
theorem C7_loop_robustness :
    ∀ (call : Nat → WSEvent → Option String) (reg : EventRegistry)
      (m : Option Json) (rest : List (Option Json)),
      (parseEvent m = none →
        websocket_listener call reg (m :: rest) = websocket_listener call reg rest)
      ∧ ∀ e : WSEvent,
          (handle_websocket_event call reg e).map Prod.fst = regGetD reg e.type := by
  intro call reg m rest
  constructor
  · intro hp
    simp [websocket_listener, hp]
  · intro e
    simp [handle_websocket_event, List.map_map, Function.comp_def]

/-- Witness for C7 at concrete inputs: a malformed frame before a
well-formed one, and listeners that all raise. -/
theorem C7_witness :
    websocket_listener (fun _ _ => some "listener crashed")
        [("results", [1, 2])]
        [some (.str "oops"),
         some (.obj [("type", .str "results"), ("timestamp", .str "t0")])]
      = websocket_listener (fun _ _ => some "listener crashed")
          [("results", [1, 2])]
          [some (.obj [("type", .str "results"), ("timestamp", .str "t0")])]
    ∧ (handle_websocket_event (fun _ _ => some "listener crashed")
        [("results", [1, 2])] ⟨"results", .null, "t0"⟩).map Prod.fst
      = regGetD [("results", [1, 2])] "results" :=
  ⟨(C7_loop_robustness (fun _ _ => some "listener crashed") [("results", [1, 2])]
      (some (.str "oops"))
      [some (.obj [("type", .str "results"), ("timestamp", .str "t0")])]).1 rfl,
   (C7_loop_robustness (fun _ _ => some "listener crashed") [("results", [1, 2])]
      (some (.str "oops"))
      [some (.obj [("type", .str "results"), ("timestamp", .str "t0")])]).2
      ⟨"results", .null, "t0"⟩⟩

/-- Claim C8: registering the same listener twice for a type keeps both
registrations, and dispatching one event of that type invokes each
registration exactly once, in registration order. -/
theorem C8_duplicate_registrations :
    ∀ (call : Nat → WSEvent → Option String) (reg : EventRegistry)
      (t : String) (L : Nat) (e : WSEvent), e.type = t →
      regGetD (on_event (on_event reg t L) t L) t = regGetD reg t ++ [L, L]
      ∧ (handle_websocket_event call (on_event (on_event reg t L) t L) e).map
          Prod.fst = regGetD reg t ++ [L, L] := by
  intro call reg t L e ht
  have hd : regGetD (on_event (on_event reg t L) t L) t = regGetD reg t ++ [L, L] := by
    rw [regGetD_on_event, regGetD_on_event]
    simp
  refine ⟨hd, ?_⟩
  simp [handle_websocket_event, ht, hd, List.map_map, Function.comp_def]

/-- Witness for C8 at a concrete registry and event. -/
theorem C8_witness :
    regGetD (on_event (on_event [("results", [7])] "results" 5) "results" 5)
        "results" = [7, 5, 5]
    ∧ (handle_websocket_event (fun _ _ => none)
        (on_event (on_event [("results", [7])] "results" 5) "results" 5)
        ⟨"results", .null, "t0"⟩).map Prod.fst = [7, 5, 5] := by
  have h := C8_duplicate_registrations (fun _ _ => none) [("results", [7])]
    "results" 5 ⟨"results", .null, "t0"⟩ rfl
  exact ⟨by rw [h.1]; rfl, by rw [h.2]; rfl⟩

/-- Claim C9: `off(t, L)` removes exactly the first matching
registration of `L` for `t` and leaves every other key's registrations
unchanged; when `L` is not registered for `t` (including when `t` has no
entry at all) it raises nothing and leaves the registry entirely
unchanged. -/
theorem C9_off_removes_first :
    ∀ (reg : EventRegistry) (t t2 : String) (L : Nat),
      regGet (off reg t L) t = (regGet reg t).map (fun hs => hs.erase L)
      ∧ (t2 ≠ t → regGet (off reg t L) t2 = regGet reg t2)
      ∧ (L ∉ regGetD reg t → off reg t L = reg) := by
  intro reg t t2 L
  refine ⟨?_, ?_, ?_⟩
  · unfold off
    by_cases hc : regContains reg t
    · simp only [hc, if_true]
      exact regGet_regUpdate reg t _
    · simp only [hc, if_false, Bool.false_eq_true]
      have hg : regGet reg t = none := by
        rcases hgg : regGet reg t with _ | v
        · rfl
        · simp [regContains, hgg] at hc
      rw [hg]
      rfl
  · intro hne
    unfold off
    by_cases hc : regContains reg t
    · simp only [hc, if_true]
      exact regGet_regUpdate_ne reg _ hne
    · simp [hc]
  · intro hmem
    unfold off
    by_cases hc : regContains reg t
    · simp only [hc, if_true]
      apply regUpdate_self
      intro v hv
      have : regGetD reg t = v := by simp [regGetD, hv]
      exact List.erase_of_not_mem (this ▸ hmem)
    · simp [hc]

/-- Witness for C9 at a concrete registry. -/
theorem C9_witness :
    off [("commitment", [4]), ("results", [8])] "commitment" 9
      = [("commitment", [4]), ("results", [8])]
    ∧ regGet (off [("commitment", [4]), ("results", [8])] "commitment" 9)
        "results" = regGet [("commitment", [4]), ("results", [8])] "results"
    ∧ regGet (off [("commitment", [4]), ("results", [8])] "commitment" 4)
        "commitment" = some [] := by
  have h1 := C9_off_removes_first [("commitment", [4]), ("results", [8])]
    "commitment" "results" 9
  have h2 := C9_off_removes_first [("commitment", [4]), ("results", [8])]
    "commitment" "results" 4
  exact ⟨h1.2.2 (by decide), h1.2.1 (by decide), by rw [h2.1]; rfl⟩

end VoteSDK
